import Mathlib

/-!
Verification development for the wedding photo-sharing backend
(`wed-pic-box`): a shallow embedding of its content data model
(Media and Guestbook Mongoose schemas), the document methods
(`addLike`, `addComment`, `addReply`, `incrementViews`), and the
Express route handlers for upload, moderation, listing, single-item
read, like, comment, bulk action, statistics and deletion, together
with theorems about the moderation / broadcast behaviour.

Identifiers (`ObjectId`s) are modelled by `Nat`; socket.io emissions
are modelled by an explicit `Emit` list returned by each handler;
database collections are modelled by `List Media` / `List Guestbook`;
the Cloudinary collaborator appears only as trace steps carrying its
public id and a success flag.
-/

set_option autoImplicit false

namespace WedPicBox

/-- The `status` enum shared by the Media and Guestbook schemas:
`['pending', 'approved', 'rejected']`. -/
inductive Status where
  | pending
  | approved
  | rejected
deriving DecidableEq

/-- The `uploader.type` enum of the Media schema:
`['guest', 'host', 'photographer']`. -/
inductive UploaderType where
  | guest
  | host
  | photographer
deriving DecidableEq

/-- The `fileType` enum of the Media schema: `['image', 'video', 'audio']`. -/
inductive FileType where
  | image
  | video
  | audio
deriving DecidableEq

/-- The `messageType` enum of the Guestbook schema: `['text', 'audio', 'mixed']`. -/
inductive MessageType where
  | text
  | audio
  | mixed
deriving DecidableEq

/-- One element of `interactions.likes` (both schemas): a guest name
(the timestamp is irrelevant to all claims and omitted). -/
structure Like where
  guestName : String
deriving DecidableEq

/-- One element of `interactions.comments` (Media) or
`interactions.replies` (Guestbook): guest name, message and the
per-comment `isApproved` flag (schema default `true`). -/
structure Comment where
  guestName : String
  message : String
  isApproved : Bool
deriving DecidableEq

/-- The `interactions` subdocument of the Media schema. -/
structure Interactions where
  likes : List Like
  comments : List Comment
  views : Nat
  downloads : Nat
deriving DecidableEq

/-- The `uploader` subdocument of the Media schema. -/
structure Uploader where
  type : UploaderType
  userId : Option Nat
  guestName : String
  guestEmail : Option String
deriving DecidableEq

/-- A Media document (the fields of `mediaSchema` that the moderation,
interaction, listing and deletion logic reads or writes; purely
descriptive metadata — dimensions, EXIF, quality variants — is
omitted). -/
structure Media where
  id : Nat
  event : Nat
  uploader : Uploader
  fileType : FileType
  cloudinaryPublicId : String
  album : String
  caption : String
  tags : List String
  interactions : Interactions
  status : Status
  isHidden : Bool
  isFeatured : Bool
deriving DecidableEq

/-- Schema default for `Media.status`: `default: 'approved'`. -/
def mediaStatusDefault : Status := Status.approved

/-- The `audioMessage` subdocument of the Guestbook schema. -/
structure AudioMessage where
  url : Option String
  duration : Option Nat
  cloudinaryPublicId : Option String
deriving DecidableEq

/-- A Guestbook document (the fields of `guestbookSchema` read or
written by the embedded handlers; request metadata is omitted). -/
structure Guestbook where
  id : Nat
  event : Nat
  guestName : String
  guestEmail : Option String
  messageType : MessageType
  textMessage : Option String
  audioMessage : AudioMessage
  likes : List Like
  replies : List Comment
  status : Status
  isHidden : Bool
  isPinned : Bool
deriving DecidableEq

/-- The `privacy` subdocument of the Event schema (the fields the
embedded handlers read). -/
structure Privacy where
  moderateUploads : Bool
  allowDownloads : Bool
deriving DecidableEq

/-- The `settings` subdocument of the Event schema (the fields the
embedded handlers read). -/
structure Settings where
  enableGuestbook : Bool
  enableAudioMessages : Bool
deriving DecidableEq

/-- The `statistics` subdocument of the Event schema. -/
structure Statistics where
  totalPhotos : Nat
  totalVideos : Nat
  totalGuestbookEntries : Nat
  totalLikes : Nat
  totalComments : Nat
deriving DecidableEq

/-- An Event document (the fields the embedded handlers read). -/
structure Event where
  id : Nat
  host : Nat
  photographers : List Nat
  privacy : Privacy
  settings : Settings
  statistics : Statistics
deriving DecidableEq

/-- The socket.io message types emitted by the embedded routes,
with the payload fields the claims are about. -/
inductive Broadcast where
  | newMedia (mediaId : Nat) (eventId : Nat)
  | newGuestbookEntry (entryId : Nat) (eventId : Nat)
  | mediaApproved (mediaId : Nat) (eventId : Nat)
  | guestbookApproved (entryId : Nat) (eventId : Nat)
  | mediaLiked (mediaId : Nat) (likeCount : Nat) (guestName : String)
  | guestbookLiked (entryId : Nat) (likeCount : Nat) (guestName : String)
  | newComment (mediaId : Nat) (guestName : String) (message : String)
  | newGuestbookReply (entryId : Nat) (guestName : String) (message : String)
  | mediaDeleted (mediaId : Nat) (eventId : Nat)
  | guestbookDeleted (entryId : Nat) (eventId : Nat)
deriving DecidableEq

/-- One `io.to(room).emit(...)` call: the event room targeted and the
message published to it. -/
structure Emit where
  room : Nat
  msg : Broadcast
deriving DecidableEq

/-- Drops leading whitespace characters from a character list. -/
def trimLeftChars : List Char → List Char
  | [] => []
  | c :: cs => if c.isWhitespace then trimLeftChars cs else c :: cs

/-- JavaScript `String.prototype.trim()`: strips whitespace from both
ends (stated structurally so that it evaluates in the kernel). -/
def jsTrim (s : String) : String :=
  String.mk ((trimLeftChars ((trimLeftChars s.data).reverse)).reverse)

/-- The names occurring in a like list. -/
def likeNames (likes : List Like) : List String :=
  likes.map Like.guestName

/-- The like-list update both `mediaSchema.methods.addLike` and
`guestbookSchema.methods.addLike` perform: find an existing like by
the same guest name; push a new like only when none exists. -/
def addLikeList (likes : List Like) (guestName : String) : List Like :=
  match likes.find? (fun like => like.guestName = guestName) with
  | some _ => likes
  | none => likes ++ [{ guestName }]

/-- `mediaSchema.methods.addLike`. -/
def Media.addLike (m : Media) (guestName : String) : Media :=
  { m with interactions :=
      { m.interactions with likes := addLikeList m.interactions.likes guestName } }

/-- `guestbookSchema.methods.addLike` (`interactions.likes` of the
Guestbook schema is the `likes` field here). -/
def Guestbook.addLike (g : Guestbook) (guestName : String) : Guestbook :=
  { g with likes := addLikeList g.likes guestName }

/-- `mediaSchema.methods.removeLike`. -/
def Media.removeLike (m : Media) (guestName : String) : Media :=
  { m with interactions :=
      { m.interactions with likes :=
          m.interactions.likes.filter (fun like => like.guestName ≠ guestName) } }

/-- `mediaSchema.virtual('likeCount')`: `interactions.likes.length`. -/
def Media.likeCount (m : Media) : Nat :=
  m.interactions.likes.length

/-- `guestbookSchema.virtual('likeCount')`. -/
def Guestbook.likeCount (g : Guestbook) : Nat :=
  g.likes.length

/-- `mediaSchema.methods.addComment`: pushes a comment whose
`isApproved` is the negation of `needsApproval`. -/
def Media.addComment (m : Media) (guestName message : String)
    (needsApproval : Bool) : Media :=
  { m with interactions :=
      { m.interactions with comments :=
          m.interactions.comments ++ [{ guestName, message, isApproved := !needsApproval }] } }

/-- `guestbookSchema.methods.addReply`: pushes a reply whose
`isApproved` is the negation of `needsApproval`. -/
def Guestbook.addReply (g : Guestbook) (guestName message : String)
    (needsApproval : Bool) : Guestbook :=
  { g with replies := g.replies ++ [{ guestName, message, isApproved := !needsApproval }] }

/-- `mediaSchema.methods.incrementViews`. -/
def Media.incrementViews (m : Media) : Media :=
  { m with interactions :=
      { m.interactions with views := m.interactions.views + 1 } }

/-- The ownership test used inline by the media / guestbook update and
delete routes: `event.host.toString() === req.user._id.toString() ||
event.photographers.includes(req.user._id)`. -/
def isEventOwner (event : Event) (user : Option Nat) : Bool :=
  match user with
  | some uid => decide (event.host = uid) || event.photographers.contains uid
  | none => false

/-- Per-file Media construction of `POST /media/guest-upload/:eventId`:
uploader is the (trimmed) guest, and `status` is
`event.privacy.moderateUploads ? 'pending' : 'approved'`. -/
def guestUploadMedia (event : Event) (id : Nat) (guestName : String)
    (guestEmail : Option String) (fileType : FileType) (publicId : String)
    (album caption : String) : Media :=
  { id, event := event.id,
    uploader := { type := UploaderType.guest, userId := none,
                  guestName := jsTrim guestName, guestEmail },
    fileType, cloudinaryPublicId := publicId, album, caption, tags := [],
    interactions := { likes := [], comments := [], views := 0, downloads := 0 },
    status := if event.privacy.moderateUploads then Status.pending else Status.approved,
    isHidden := false, isFeatured := false }

/-- The guest-upload route's emission for a saved file: `new-media` to
the event room only when the saved media's status is `approved`. -/
def guestUploadEmits (m : Media) : List Emit :=
  if m.status = Status.approved then [⟨m.event, Broadcast.newMedia m.id m.event⟩] else []

/-- Per-file Media construction of `POST /media/upload/:eventId`
(authenticated hosts / photographers): no `status` is passed, so the
schema default applies. -/
def uploadMedia (event : Event) (id : Nat) (userId : Nat)
    (roleIsPhotographer : Bool) (fileType : FileType) (publicId : String)
    (album caption : String) (tags : List String) : Media :=
  { id, event := event.id,
    uploader := { type := if roleIsPhotographer then UploaderType.photographer
                          else UploaderType.host,
                  userId := some userId,
                  guestName := "Anonymous Guest", guestEmail := none },
    fileType, cloudinaryPublicId := publicId, album, caption, tags,
    interactions := { likes := [], comments := [], views := 0, downloads := 0 },
    status := mediaStatusDefault,
    isHidden := false, isFeatured := false }

/-- The authenticated upload route's emission for a saved file:
`new-media` to the event room, unconditionally. -/
def uploadEmits (m : Media) : List Emit :=
  [⟨m.event, Broadcast.newMedia m.id m.event⟩]

/-- Guestbook construction of `POST /guestbook/:eventId` (text entry):
`status` is `event.privacy.moderateUploads ? 'pending' : 'approved'`. -/
def createGuestbookEntry (event : Event) (id : Nat) (guestName : String)
    (guestEmail : Option String) (textMessage : String) : Guestbook :=
  { id, event := event.id, guestName := jsTrim guestName, guestEmail,
    messageType := MessageType.text, textMessage := some (jsTrim textMessage),
    audioMessage := { url := none, duration := none, cloudinaryPublicId := none },
    likes := [], replies := [],
    status := if event.privacy.moderateUploads then Status.pending else Status.approved,
    isHidden := false, isPinned := false }

/-- Guestbook construction of `POST /guestbook/:eventId/audio`:
`messageType` is `mixed` when a non-blank text message accompanies the
audio, and `status` uses the same moderation ternary. -/
def createAudioGuestbookEntry (event : Event) (id : Nat) (guestName : String)
    (guestEmail : Option String) (textMessage : Option String)
    (audioUrl : String) (duration : Option Nat) (publicId : String) : Guestbook :=
  { id, event := event.id, guestName := jsTrim guestName, guestEmail,
    messageType := match textMessage with
      | some t => if jsTrim t = "" then MessageType.audio else MessageType.mixed
      | none => MessageType.audio,
    textMessage := match textMessage with
      | some t => if jsTrim t = "" then none else some (jsTrim t)
      | none => none,
    audioMessage := { url := some audioUrl, duration, cloudinaryPublicId := some publicId },
    likes := [], replies := [],
    status := if event.privacy.moderateUploads then Status.pending else Status.approved,
    isHidden := false, isPinned := false }

/-- Both guestbook creation routes emit `new-guestbook-entry` (and
increment the event's counters) only when the saved entry is
`approved`. -/
def createGuestbookEmits (g : Guestbook) : List Emit :=
  if g.status = Status.approved then
    [⟨g.event, Broadcast.newGuestbookEntry g.id g.event⟩]
  else []

/-- The optional query filters of `GET /media/event/:eventId`. -/
structure MediaListQuery where
  album : Option String
  fileType : Option FileType
  featured : Bool
deriving DecidableEq

/-- The Mongo query of `GET /media/event/:eventId` (the public event
listing): always `event`, `status: 'approved'`, `isHidden: false`;
`album` is added when given and not `'All Photos'`; `fileType` when
given; `isFeatured: true` when `featured === 'true'`. Pagination and
sorting reorder and window the result and are not modelled. -/
def mediaListMatch (eventId : Nat) (q : MediaListQuery) (m : Media) : Bool :=
  decide (m.event = eventId) && decide (m.status = Status.approved) && !m.isHidden
    && (match q.album with
        | some a => if a = "All Photos" then true else decide (m.album = a)
        | none => true)
    && (match q.fileType with
        | some ft => decide (m.fileType = ft)
        | none => true)
    && (if q.featured then m.isFeatured else true)

/-- `GET /media/event/:eventId` as a query over the Media collection. -/
def getEventMedia (db : List Media) (eventId : Nat) (q : MediaListQuery) : List Media :=
  db.filter (mediaListMatch eventId q)

/-- `GET /guestbook/:eventId` (public listing): guarded by
`settings.enableGuestbook`, then the query `event`,
`status: 'approved'`, `isHidden: false`. -/
def getEventGuestbook (db : List Guestbook) (event : Event) :
    Except String (List Guestbook) :=
  if !event.settings.enableGuestbook then
    Except.error "Guestbook is disabled for this event"
  else
    Except.ok (db.filter (fun g =>
      decide (g.event = event.id) && decide (g.status = Status.approved) && !g.isHidden))

/-- `GET /media/:mediaId` (single item, `optionalAuth`): `event` is the
populated event document of `m`; a non-approved item is a 404 unless
the requester owns the event; otherwise the view counter is
incremented and the item returned. The route never reads `isHidden`. -/
def getMedia (event : Event) (m : Media) (user : Option Nat) : Option Media :=
  if decide (m.status ≠ Status.approved) && !isEventOwner event user then none
  else some m.incrementViews

/-- `GET /guestbook/entry/:entryId`: the route mounts no auth
middleware and performs no status or ownership check — it returns
whatever entry `findById` yields. -/
def getGuestbookEntry (db : List Guestbook) (entryId : Nat) : Option Guestbook :=
  db.find? (fun g => decide (g.id = entryId))

/-- The body fields `PUT /media/:mediaId` copies into `updateData`. -/
structure MediaUpdateBody where
  caption : Option String
  album : Option String
  tags : Option (List String)
  status : Option Status
  isFeatured : Option Bool
  isHidden : Option Bool
deriving DecidableEq

/-- `PUT /media/:mediaId`: ownership check against the populated event
(`event._id` equals `m.event`), field-wise update, and a
`media-approved` emission exactly under the route's condition
`status === 'approved' && media.status !== 'approved'`. -/
def putMedia (event : Event) (userId : Nat) (m : Media) (body : MediaUpdateBody) :
    Except String (Media × List Emit) :=
  if !isEventOwner event (some userId) then Except.error "Permission denied"
  else
    let updated : Media :=
      { m with
        caption := body.caption.getD m.caption,
        album := body.album.getD m.album,
        tags := body.tags.getD m.tags,
        status := body.status.getD m.status,
        isFeatured := body.isFeatured.getD m.isFeatured,
        isHidden := body.isHidden.getD m.isHidden }
    let emits : List Emit :=
      if body.status = some Status.approved ∧ m.status ≠ Status.approved then
        [⟨m.event, Broadcast.mediaApproved m.id m.event⟩]
      else []
    Except.ok (updated, emits)

/-- The body fields `PUT /guestbook/entry/:entryId` copies into
`updateData`. -/
structure GuestbookUpdateBody where
  status : Option Status
  isPinned : Option Bool
  isHidden : Option Bool
deriving DecidableEq

/-- `PUT /guestbook/entry/:entryId`: ownership check, field-wise
update, and a `guestbook-approved` emission exactly when the requested
status is `approved` and the previous status was not. -/
def putGuestbookEntry (event : Event) (userId : Nat) (g : Guestbook)
    (body : GuestbookUpdateBody) : Except String (Guestbook × List Emit) :=
  if !isEventOwner event (some userId) then Except.error "Permission denied"
  else
    let updated : Guestbook :=
      { g with
        status := body.status.getD g.status,
        isPinned := body.isPinned.getD g.isPinned,
        isHidden := body.isHidden.getD g.isHidden }
    let emits : List Emit :=
      if body.status = some Status.approved ∧ g.status ≠ Status.approved then
        [⟨g.event, Broadcast.guestbookApproved g.id g.event⟩]
      else []
    Except.ok (updated, emits)

/-- The spec's Moderation Gate signal: `becameVisible` is true exactly
when the previous status is not `approved` and the new status is
`approved`. -/
def becameVisible (prev next : Status) : Bool :=
  decide (prev ≠ Status.approved) && decide (next = Status.approved)

/-- `POST /media/:mediaId/like`: name required (after trim), the media
must belong to the request's event, then `addLike` with the trimmed
name and one `media-liked` emission whose `likeCount` is read from the
saved document's virtual plus one (`media.likeCount + 1`). -/
def likeMedia (event : Event) (m : Media) (guestName : String) :
    Except String (Media × List Emit) :=
  if jsTrim guestName = "" then Except.error "Guest name is required"
  else if m.event ≠ event.id then Except.error "Media does not belong to this event"
  else
    let saved := m.addLike (jsTrim guestName)
    Except.ok (saved,
      [⟨event.id, Broadcast.mediaLiked m.id (saved.likeCount + 1) (jsTrim guestName)⟩])

/-- `POST /guestbook/entry/:entryId/like`: same shape as the media
like route, emitting `guestbook-liked` with `entry.likeCount + 1`. -/
def likeGuestbookEntry (event : Event) (g : Guestbook) (guestName : String) :
    Except String (Guestbook × List Emit) :=
  if jsTrim guestName = "" then Except.error "Guest name is required"
  else if g.event ≠ event.id then Except.error "Entry does not belong to this event"
  else
    let saved := g.addLike (jsTrim guestName)
    Except.ok (saved,
      [⟨event.id, Broadcast.guestbookLiked g.id (saved.likeCount + 1) (jsTrim guestName)⟩])

/-- `POST /media/:mediaId/comments`: validation (non-blank name,
message of 1–300 characters after trim), event membership, then
`addComment` with `needsApproval = event.privacy.moderateUploads` and
a `new-comment` emission only when `!needsApproval`. -/
def postComment (event : Event) (m : Media) (guestName message : String) :
    Except String (Media × List Emit) :=
  if jsTrim guestName = "" then Except.error "Validation failed"
  else if jsTrim message = "" ∨ (jsTrim message).length > 300 then
    Except.error "Validation failed"
  else if m.event ≠ event.id then Except.error "Media does not belong to this event"
  else
    let needsApproval := event.privacy.moderateUploads
    let saved := m.addComment (jsTrim guestName) (jsTrim message) needsApproval
    Except.ok (saved,
      if needsApproval then []
      else [⟨event.id, Broadcast.newComment m.id (jsTrim guestName) (jsTrim message)⟩])

/-- `POST /guestbook/entry/:entryId/replies`: same shape as the media
comment route, using `addReply` and `new-guestbook-reply`. -/
def postReply (event : Event) (g : Guestbook) (guestName message : String) :
    Except String (Guestbook × List Emit) :=
  if jsTrim guestName = "" then Except.error "Validation failed"
  else if jsTrim message = "" ∨ (jsTrim message).length > 300 then
    Except.error "Validation failed"
  else if g.event ≠ event.id then Except.error "Entry does not belong to this event"
  else
    let needsApproval := event.privacy.moderateUploads
    let saved := g.addReply (jsTrim guestName) (jsTrim message) needsApproval
    Except.ok (saved,
      if needsApproval then []
      else [⟨event.id, Broadcast.newGuestbookReply g.id (jsTrim guestName) (jsTrim message)⟩])

/-- The `updateData` applied by `PATCH /media/bulk-action/:eventId` for
the non-delete actions. -/
def applyBulkMediaUpdate (action : String) (m : Media) : Media :=
  if action = "approve" then { m with status := Status.approved }
  else if action = "reject" then { m with status := Status.rejected }
  else if action = "feature" then { m with isFeatured := true }
  else if action = "unfeature" then { m with isFeatured := false }
  else m

/-- `PATCH /media/bulk-action/:eventId`: after validating the id list
and the action, `delete` removes and the other actions `updateMany`
exactly the documents matching `_id ∈ mediaIds ∧ event = eventId`;
the other documents are untouched and a non-matching id raises no
error. -/
def bulkActionMedia (db : List Media) (eventId : Nat) (mediaIds : List Nat)
    (action : String) : Except String (List Media) :=
  if mediaIds = [] then Except.error "Media IDs array is required"
  else if !(["approve", "reject", "delete", "feature", "unfeature"].contains action) then
    Except.error "Invalid action"
  else if action = "delete" then
    Except.ok (db.filter (fun m => !(decide (m.id ∈ mediaIds) && decide (m.event = eventId))))
  else
    Except.ok (db.map (fun m =>
      if decide (m.id ∈ mediaIds) && decide (m.event = eventId) then
        applyBulkMediaUpdate action m
      else m))

/-- The `updateData` applied by `PATCH /guestbook/bulk-action/:eventId`
for the non-delete actions. -/
def applyBulkGuestbookUpdate (action : String) (g : Guestbook) : Guestbook :=
  if action = "approve" then { g with status := Status.approved }
  else if action = "reject" then { g with status := Status.rejected }
  else if action = "pin" then { g with isPinned := true }
  else if action = "unpin" then { g with isPinned := false }
  else g

/-- `PATCH /guestbook/bulk-action/:eventId`: same scoping as the media
bulk route, with `pin`/`unpin` in place of `feature`/`unfeature`. -/
def bulkActionGuestbook (db : List Guestbook) (eventId : Nat) (entryIds : List Nat)
    (action : String) : Except String (List Guestbook) :=
  if entryIds = [] then Except.error "Entry IDs array is required"
  else if !(["approve", "reject", "delete", "pin", "unpin"].contains action) then
    Except.error "Invalid action"
  else if action = "delete" then
    Except.ok (db.filter (fun g => !(decide (g.id ∈ entryIds) && decide (g.event = eventId))))
  else
    Except.ok (db.map (fun g =>
      if decide (g.id ∈ entryIds) && decide (g.event = eventId) then
        applyBulkGuestbookUpdate action g
      else g))

/-- `Media.countDocuments({ event: eventId, fileType: ft })` as issued
by `GET /events/:eventId/stats` — note the filter has no `status`
key. -/
def countMediaByType (db : List Media) (eventId : Nat) (ft : FileType) : Nat :=
  (db.filter (fun m => decide (m.event = eventId) && decide (m.fileType = ft))).length

/-- `Guestbook.countDocuments({ event: eventId })` as issued by
`GET /events/:eventId/stats` — again no `status` key. -/
def countGuestbook (db : List Guestbook) (eventId : Nat) : Nat :=
  (db.filter (fun g => decide (g.event = eventId))).length

/-- The stats route's likes aggregation: match on `event` only,
project `$size` of `interactions.likes`, sum. -/
def sumMediaLikes (db : List Media) (eventId : Nat) : Nat :=
  ((db.filter (fun m => decide (m.event = eventId))).map
    (fun m => m.interactions.likes.length)).sum

/-- The stats route's comments aggregation: match on `event` only,
project `$size` of `interactions.comments`, sum. -/
def sumMediaComments (db : List Media) (eventId : Nat) : Nat :=
  ((db.filter (fun m => decide (m.event = eventId))).map
    (fun m => m.interactions.comments.length)).sum

/-- The statistics recomputed by `GET /events/:eventId/stats` and
written back onto the event document. -/
def getEventStats (mediaDb : List Media) (guestbookDb : List Guestbook)
    (eventId : Nat) : Statistics :=
  { totalPhotos := countMediaByType mediaDb eventId FileType.image,
    totalVideos := countMediaByType mediaDb eventId FileType.video,
    totalGuestbookEntries := countGuestbook guestbookDb eventId,
    totalLikes := sumMediaLikes mediaDb eventId,
    totalComments := sumMediaComments mediaDb eventId }

/-- The statistics recomputation as the spec (§4.4) describes it:
rows filtered by `eventId`, kind AND `status = approved`, with the
like/comment sums taken over the approved matched items. Stated here
only to be compared with `getEventStats`, the recomputation the code
performs. -/
def getEventStatsSpec (mediaDb : List Media) (guestbookDb : List Guestbook)
    (eventId : Nat) : Statistics :=
  { totalPhotos := (mediaDb.filter (fun m =>
      decide (m.event = eventId) && decide (m.fileType = FileType.image)
        && decide (m.status = Status.approved))).length,
    totalVideos := (mediaDb.filter (fun m =>
      decide (m.event = eventId) && decide (m.fileType = FileType.video)
        && decide (m.status = Status.approved))).length,
    totalGuestbookEntries := (guestbookDb.filter (fun g =>
      decide (g.event = eventId) && decide (g.status = Status.approved))).length,
    totalLikes := ((mediaDb.filter (fun m =>
      decide (m.event = eventId) && decide (m.status = Status.approved))).map
        (fun m => m.interactions.likes.length)).sum,
    totalComments := ((mediaDb.filter (fun m =>
      decide (m.event = eventId) && decide (m.status = Status.approved))).map
        (fun m => m.interactions.comments.length)).sum }

/-- One observable step of a deletion handler: the Cloudinary delete
attempt (with its outcome), the database removal, the statistics
update, and socket emissions. -/
inductive Step where
  | storageDelete (publicId : String) (ok : Bool)
  | dbDelete (id : Nat)
  | statsUpdate
  | emit (e : Emit)
deriving DecidableEq

/-- Whether a deletion step is a socket emission. -/
def Step.isEmit (s : Step) : Bool :=
  match s with
  | Step.emit _ => true
  | _ => false

/-- `DELETE /media/:mediaId` as its sequence of observable steps:
ownership check, Cloudinary delete inside `try/catch` (the outcome
`storageOk` is recorded but — the `catch` only logs — does not alter
any later step), `findByIdAndDelete`, statistics decrement, and one
`media-deleted` emission to the event room. -/
def deleteMedia (event : Event) (userId : Nat) (m : Media) (storageOk : Bool) :
    Except String (List Step) :=
  if !isEventOwner event (some userId) then Except.error "Permission denied"
  else
    Except.ok [Step.storageDelete m.cloudinaryPublicId storageOk,
               Step.dbDelete m.id,
               Step.statsUpdate,
               Step.emit ⟨m.event, Broadcast.mediaDeleted m.id m.event⟩]

/-- `DELETE /guestbook/entry/:entryId` as its observable steps: the
Cloudinary delete is attempted (inside `try/catch`) only when the
entry has an audio payload; the database removal, statistics update
and the single `guestbook-deleted` emission follow regardless of the
storage outcome. -/
def deleteGuestbookEntry (event : Event) (userId : Nat) (g : Guestbook)
    (storageOk : Bool) : Except String (List Step) :=
  if !isEventOwner event (some userId) then Except.error "Permission denied"
  else
    Except.ok ((match g.audioMessage.cloudinaryPublicId with
                | some pid => [Step.storageDelete pid storageOk]
                | none => []) ++
               [Step.dbDelete g.id,
                Step.statsUpdate,
                Step.emit ⟨g.event, Broadcast.guestbookDeleted g.id g.event⟩])

/-- Whether a deletion step is the Cloudinary delete attempt. -/
def Step.isStorage (s : Step) : Bool :=
  match s with
  | Step.storageDelete _ _ => true
  | _ => false

/-! Concrete documents used to evaluate the handlers on closed inputs. -/

/-- A sample event (id 1, host user 10, photographer 11) with
`moderateUploads` on. -/
def demoEventOn : Event :=
  { id := 1, host := 10, photographers := [11],
    privacy := { moderateUploads := true, allowDownloads := true },
    settings := { enableGuestbook := true, enableAudioMessages := true },
    statistics := { totalPhotos := 0, totalVideos := 0, totalGuestbookEntries := 0,
                    totalLikes := 0, totalComments := 0 } }

/-- The same event with `moderateUploads` off. -/
def demoEventOff : Event :=
  { demoEventOn with privacy := { moderateUploads := false, allowDownloads := true } }

/-- An approved guest photo in event 1 with no interactions yet. -/
def demoMedia : Media :=
  { id := 5, event := 1,
    uploader := { type := UploaderType.guest, userId := none,
                  guestName := "Dana", guestEmail := none },
    fileType := FileType.image, cloudinaryPublicId := "pid5",
    album := "All Photos", caption := "", tags := [],
    interactions := { likes := [], comments := [], views := 0, downloads := 0 },
    status := Status.approved, isHidden := false, isFeatured := false }

/-- A pending photo in event 1 carrying two likes and one comment. -/
def pendingPhoto : Media :=
  { demoMedia with
    id := 6,
    status := Status.pending,
    interactions := { likes := [{ guestName := "Ana" }, { guestName := "Ben" }],
                      comments := [{ guestName := "Ana", message := "lovely",
                                     isApproved := true }],
                      views := 0, downloads := 0 } }

/-- An approved photo in event 1 whose `isHidden` flag is set. -/
def hiddenApprovedPhoto : Media :=
  { demoMedia with id := 7, isHidden := true }

/-- An approved photo that belongs to a different event (id 2). -/
def otherEventMedia : Media :=
  { demoMedia with id := 9, event := 2, status := Status.pending }

/-- A pending text guestbook entry in event 1. -/
def pendingEntry : Guestbook :=
  { id := 1, event := 1, guestName := "Dana", guestEmail := none,
    messageType := MessageType.text, textMessage := some "hello",
    audioMessage := { url := none, duration := none, cloudinaryPublicId := none },
    likes := [], replies := [], status := Status.pending,
    isHidden := false, isPinned := false }

/-- A pending guestbook entry of event 2. -/
def otherEventEntry : Guestbook :=
  { pendingEntry with id := 3, event := 2 }

/-- The update body a host sends to approve an item. -/
def approveBody : MediaUpdateBody :=
  { caption := none, album := none, tags := none,
    status := some Status.approved, isFeatured := none, isHidden := none }

/-- The guestbook update body approving an entry. -/
def approveBodyG : GuestbookUpdateBody :=
  { status := some Status.approved, isPinned := none, isHidden := none }

/-- `pendingPhoto` after a host approves it. -/
def approvedPendingPhoto : Media :=
  { pendingPhoto with status := Status.approved }

/-- `pendingEntry` after a host approves it. -/
def approvedPendingEntry : Guestbook :=
  { pendingEntry with status := Status.approved }

/-! ### Helper lemmas about the shared like-list update -/

theorem likeNames_append (l1 l2 : List Like) :
    likeNames (l1 ++ l2) = likeNames l1 ++ likeNames l2 :=
  List.map_append _ _ _

theorem addLikeList_of_mem {l : List Like} {g : String} (h : g ∈ likeNames l) :
    addLikeList l g = l := by
  unfold addLikeList
  cases hf : l.find? (fun like => like.guestName = g) with
  | some x => rfl
  | none =>
    exfalso
    obtain ⟨like, hmem, hname⟩ := List.mem_map.mp h
    have hnone := List.find?_eq_none.mp hf like hmem
    simp [hname] at hnone

theorem addLikeList_of_not_mem {l : List Like} {g : String} (h : g ∉ likeNames l) :
    addLikeList l g = l ++ [{ guestName := g }] := by
  unfold addLikeList
  cases hf : l.find? (fun like => like.guestName = g) with
  | some x =>
    exfalso
    have hx := List.find?_some hf
    have hxmem := List.mem_of_find?_eq_some hf
    simp only [decide_eq_true_eq] at hx
    exact h (List.mem_map.mpr ⟨x, hxmem, hx⟩)
  | none => rfl

theorem mem_likeNames_addLikeList (l : List Like) (g : String) :
    g ∈ likeNames (addLikeList l g) := by
  by_cases h : g ∈ likeNames l
  · rwa [addLikeList_of_mem h]
  · rw [addLikeList_of_not_mem h, likeNames_append]
    simp [likeNames]

theorem addLikeList_idem (l : List Like) (g : String) :
    addLikeList (addLikeList l g) g = addLikeList l g :=
  addLikeList_of_mem (mem_likeNames_addLikeList l g)

theorem addLikeList_nodup {l : List Like} {g : String}
    (h : (likeNames l).Nodup) : (likeNames (addLikeList l g)).Nodup := by
  by_cases hm : g ∈ likeNames l
  · rwa [addLikeList_of_mem hm]
  · rw [addLikeList_of_not_mem hm, likeNames_append]
    have hone : likeNames [{ guestName := g }] = [g] := rfl
    rw [hone]
    refine List.Nodup.append h (List.nodup_singleton g) ?_
    intro a ha hb
    rw [List.mem_singleton] at hb
    subst hb
    exact hm ha

theorem filter_name_eq_nil {l : List Like} {g : String} (h : g ∉ likeNames l) :
    l.filter (fun like => like.guestName = g) = [] := by
  rw [List.filter_eq_nil_iff]
  intro like hmem
  simp only [decide_eq_true_eq]
  intro hg
  exact h (List.mem_map.mpr ⟨like, hmem, hg⟩)

/-! ### Claims -/

/-- C6: adding a like under a guest name that already has one is a
no-op; `addLike` is idempotent; two calls with a fresh name yield
exactly one like entry for that name and raise `likeCount` by exactly
one; and `addLike` never introduces a duplicate guest name into the
like list. Stated for `Media.addLike` and `Guestbook.addLike`, whose
bodies are the identical find-then-push. -/
theorem claim_addLike_idempotent_dedup (m : Media) (e : Guestbook) (g : String) :
    (g ∈ likeNames m.interactions.likes → m.addLike g = m) ∧
    ((m.addLike g).addLike g = m.addLike g) ∧
    (g ∉ likeNames m.interactions.likes →
      (((m.addLike g).addLike g).interactions.likes.filter
          (fun like => like.guestName = g)).length = 1 ∧
        ((m.addLike g).addLike g).likeCount = m.likeCount + 1) ∧
    ((likeNames m.interactions.likes).Nodup →
      (likeNames (m.addLike g).interactions.likes).Nodup) ∧
    (g ∈ likeNames e.likes → e.addLike g = e) ∧
    ((e.addLike g).addLike g = e.addLike g) ∧
    ((likeNames e.likes).Nodup → (likeNames (e.addLike g).likes).Nodup) := by
  refine ⟨?_, ?_, ?_, ?_, ?_, ?_, ?_⟩
  · intro h
    unfold Media.addLike
    rw [addLikeList_of_mem h]
  · unfold Media.addLike
    simp [addLikeList_idem]
  · intro h
    constructor
    · show ((addLikeList (addLikeList m.interactions.likes g) g).filter
          (fun like => like.guestName = g)).length = 1
      rw [addLikeList_idem, addLikeList_of_not_mem h, List.filter_append,
        filter_name_eq_nil h]
      simp
    · show (addLikeList (addLikeList m.interactions.likes g) g).length =
        m.interactions.likes.length + 1
      rw [addLikeList_idem, addLikeList_of_not_mem h]
      simp
  · intro h
    exact addLikeList_nodup h
  · intro h
    unfold Guestbook.addLike
    rw [addLikeList_of_mem h]
  · unfold Guestbook.addLike
    simp [addLikeList_idem]
  · intro h
    exact addLikeList_nodup h

/-- Witness for C6 at the concrete photo and a fresh name. -/
theorem claim_addLike_idempotent_dedup_witness :
    "Alice" ∉ likeNames demoMedia.interactions.likes ∧
    (demoMedia.addLike "Alice").addLike "Alice" = demoMedia.addLike "Alice" ∧
    ((demoMedia.addLike "Alice").addLike "Alice").likeCount
      = demoMedia.likeCount + 1 := by
  have h := claim_addLike_idempotent_dedup demoMedia pendingEntry "Alice"
  exact ⟨by decide, h.2.1, (h.2.2.1 (by decide)).2⟩

/-- C2: a guest submission (media upload, text or audio guestbook
entry) is stored `pending` exactly when the event's
`privacy.moderateUploads` is on and `approved` when it is off, while
an authenticated host/photographer upload is stored with the schema
default `approved` regardless of the policy. -/
theorem claim_initial_status (event : Event) (id uid : Nat) (gn : String)
    (ge : Option String) (ft : FileType) (pid : String) (al cap tm : String)
    (tags : List String) (isPhotog : Bool) (tmOpt : Option String)
    (audioUrl : String) (dur : Option Nat) :
    (event.privacy.moderateUploads = true →
      (guestUploadMedia event id gn ge ft pid al cap).status = Status.pending ∧
      (createGuestbookEntry event id gn ge tm).status = Status.pending ∧
      (createAudioGuestbookEntry event id gn ge tmOpt audioUrl dur pid).status
        = Status.pending) ∧
    (event.privacy.moderateUploads = false →
      (guestUploadMedia event id gn ge ft pid al cap).status = Status.approved ∧
      (createGuestbookEntry event id gn ge tm).status = Status.approved ∧
      (createAudioGuestbookEntry event id gn ge tmOpt audioUrl dur pid).status
        = Status.approved) ∧
    (uploadMedia event id uid isPhotog ft pid al cap tags).status
      = Status.approved := by
  refine ⟨?_, ?_, rfl⟩ <;> intro h <;>
    exact ⟨by simp [guestUploadMedia, h], by simp [createGuestbookEntry, h],
      by simp [createAudioGuestbookEntry, h]⟩

/-- Witness for C2 at the two concrete events. -/
theorem claim_initial_status_witness :
    demoEventOn.privacy.moderateUploads = true ∧
    (guestUploadMedia demoEventOn 21 "Ann" none FileType.image "p21" "All Photos"
      "").status = Status.pending ∧
    (createGuestbookEntry demoEventOff 22 "Ann" none "congrats").status
      = Status.approved ∧
    (uploadMedia demoEventOn 23 10 false FileType.image "p23" "All Photos" ""
      []).status = Status.approved := by
  refine ⟨by decide, ?_, ?_, ?_⟩
  · exact ((claim_initial_status demoEventOn 21 10 "Ann" none FileType.image
      "p21" "All Photos" "" "x" [] false none "a" none).1 (by decide)).1
  · exact ((claim_initial_status demoEventOff 22 10 "Ann" none FileType.image
      "p22" "All Photos" "" "congrats" [] false none "a" none).2.1 (by decide)).2.1
  · exact (claim_initial_status demoEventOn 23 10 "Ann" none FileType.image
      "p23" "All Photos" "" "x" [] false none "a" none).2.2

/-- C3: a successful status update on a media item or guestbook entry
emits the `media-approved` / `guestbook-approved` broadcast to the
item's event room exactly when the item became visible (previous
status not `approved`, new status `approved`); re-approving an
already-approved item emits nothing. -/
theorem claim_moderation_transition (event : Event) (userId : Nat)
    (m : Media) (body : MediaUpdateBody) (updM : Media) (emitsM : List Emit)
    (hM : putMedia event userId m body = Except.ok (updM, emitsM))
    (g : Guestbook) (bodyG : GuestbookUpdateBody) (updG : Guestbook)
    (emitsG : List Emit)
    (hG : putGuestbookEntry event userId g bodyG = Except.ok (updG, emitsG)) :
    (emitsM ≠ [] ↔ becameVisible m.status updM.status = true) ∧
    (emitsM ≠ [] → emitsM = [⟨m.event, Broadcast.mediaApproved m.id m.event⟩]) ∧
    (m.status = Status.approved → emitsM = []) ∧
    (emitsG ≠ [] ↔ becameVisible g.status updG.status = true) ∧
    (emitsG ≠ [] → emitsG = [⟨g.event, Broadcast.guestbookApproved g.id g.event⟩]) ∧
    (g.status = Status.approved → emitsG = []) := by
  unfold putMedia at hM
  unfold putGuestbookEntry at hG
  by_cases hOwn : isEventOwner event (some userId) = true
  case neg =>
    exfalso
    rw [Bool.not_eq_true] at hOwn
    rw [if_pos (by simp [hOwn])] at hM
    exact Except.noConfusion hM
  case pos =>
    rw [if_neg (by simp [hOwn])] at hM
    rw [if_neg (by simp [hOwn])] at hG
    simp only [Except.ok.injEq, Prod.mk.injEq] at hM hG
    obtain ⟨hupd, hemit⟩ := hM
    obtain ⟨hupdG, hemitG⟩ := hG
    subst hupd hemit hupdG hemitG
    refine ⟨?_, ?_, ?_, ?_, ?_, ?_⟩
    · rcases hbs : body.status with _ | s
      · cases hm : m.status <;> simp [hbs, hm, becameVisible]
      · cases s <;> cases hm : m.status <;> simp [hbs, hm, becameVisible]
    · by_cases hc : body.status = some Status.approved ∧ m.status ≠ Status.approved
      · simp [hc]
      · simp [if_neg hc]
    · intro hm
      rw [if_neg (by rintro ⟨_, hn⟩; exact hn hm)]
    · rcases hbs : bodyG.status with _ | s
      · cases hg : g.status <;> simp [hbs, hg, becameVisible]
      · cases s <;> cases hg : g.status <;> simp [hbs, hg, becameVisible]
    · by_cases hc : bodyG.status = some Status.approved ∧ g.status ≠ Status.approved
      · simp [hc]
      · simp [if_neg hc]
    · intro hg
      rw [if_neg (by rintro ⟨_, hn⟩; exact hn hg)]

/-- Witness for C3: approving the concrete pending photo broadcasts
`media-approved` once; the transition was indeed into visibility. -/
theorem claim_moderation_transition_witness :
    putMedia demoEventOn 10 pendingPhoto approveBody
      = Except.ok (approvedPendingPhoto, [⟨1, Broadcast.mediaApproved 6 1⟩]) ∧
    becameVisible pendingPhoto.status approvedPendingPhoto.status = true := by
  have h := claim_moderation_transition demoEventOn 10 pendingPhoto approveBody
    approvedPendingPhoto [⟨1, Broadcast.mediaApproved 6 1⟩] rfl
    pendingEntry approveBodyG approvedPendingEntry
    [⟨1, Broadcast.guestbookApproved 1 1⟩] rfl
  exact ⟨rfl, h.1.mp (by simp)⟩

/-- C1, evaluated at the failing input: the guestbook single-entry
route (`GET /guestbook/entry/:entryId`) mounts no auth middleware and
checks neither status nor ownership, so it returns a `pending` entry
to an unauthenticated requester — even though the guest-facing listing
and the creation-time broadcast both exclude that same entry. -/
theorem claim_pending_entry_leak :
    getGuestbookEntry [pendingEntry] 1 = some pendingEntry ∧
    pendingEntry.status = Status.pending ∧
    getEventGuestbook [pendingEntry] demoEventOn = Except.ok [] ∧
    createGuestbookEmits pendingEntry = [] :=
  ⟨rfl, rfl, rfl, rfl⟩

/-- C4, evaluated at the failing input: the statistics recomputation
counts rows filtered only by event and kind — never by `status` — so
an event whose sole photo and sole guestbook entry are `pending`
recomputes `totalPhotos = 1`, `totalGuestbookEntries = 1`,
`totalLikes = 2` and `totalComments = 1`, whereas the approved-only
recomputation the spec describes yields all zeros. -/
theorem claim_stats_status_blind :
    (getEventStats [pendingPhoto] [pendingEntry] 1).totalPhotos = 1 ∧
    (getEventStats [pendingPhoto] [pendingEntry] 1).totalGuestbookEntries = 1 ∧
    (getEventStats [pendingPhoto] [pendingEntry] 1).totalLikes = 2 ∧
    (getEventStats [pendingPhoto] [pendingEntry] 1).totalComments = 1 ∧
    (getEventStatsSpec [pendingPhoto] [pendingEntry] 1).totalPhotos = 0 ∧
    (getEventStatsSpec [pendingPhoto] [pendingEntry] 1).totalLikes = 0 ∧
    getEventStats [pendingPhoto] [pendingEntry] 1
      ≠ getEventStatsSpec [pendingPhoto] [pendingEntry] 1 :=
  ⟨rfl, rfl, rfl, rfl, rfl, rfl, by decide⟩

/-- C5, evaluated at the failing input: liking a media item that has
no prior likes publishes exactly one `media-liked` message carrying
the item id and the trimmed guest name, but its `likeCount` field is
2 — the saved document's like count plus one — while the item holds
exactly one like after the request. -/
theorem claim_like_broadcast_offby_one :
    likeMedia demoEventOn demoMedia "Alice"
      = Except.ok (demoMedia.addLike "Alice",
          [⟨1, Broadcast.mediaLiked 5 2 "Alice"⟩]) ∧
    (demoMedia.addLike "Alice").likeCount = 1 ∧
    (2 : Nat) ≠ (demoMedia.addLike "Alice").likeCount :=
  ⟨rfl, rfl, by decide⟩

/-- C10: an approved but hidden media item is excluded from the public
event listing, whose query requires `status: 'approved'` and
`isHidden: false`, yet the single-item route returns it to any
requester — it checks only status (and ownership for non-approved
items), never `isHidden` — and increments its view counter. -/
theorem claim_hidden_single_read (db : List Media) (event : Event)
    (m : Media) (user : Option Nat)
    (hst : m.status = Status.approved) (hh : m.isHidden = true) :
    m ∉ getEventMedia db m.event
        { album := none, fileType := none, featured := false } ∧
    getMedia event m user = some m.incrementViews ∧
    (m.incrementViews).interactions.views = m.interactions.views + 1 := by
  refine ⟨?_, ?_, rfl⟩
  · intro hmem
    rw [getEventMedia, List.mem_filter] at hmem
    obtain ⟨-, hmatch⟩ := hmem
    simp [mediaListMatch, hh] at hmatch
  · simp [getMedia, hst]

/-- Witness for C10 at the concrete hidden approved photo. -/
theorem claim_hidden_single_read_witness :
    hiddenApprovedPhoto ∉ getEventMedia [hiddenApprovedPhoto] 1
      { album := none, fileType := none, featured := false } ∧
    getMedia demoEventOn hiddenApprovedPhoto none
      = some hiddenApprovedPhoto.incrementViews := by
  have h := claim_hidden_single_read [hiddenApprovedPhoto] demoEventOn
    hiddenApprovedPhoto none rfl rfl
  exact ⟨h.1, h.2.1⟩

theorem forall₂_map_self {α : Type} (f : α → α) (R : α → α → Prop) (l : List α)
    (h : ∀ a ∈ l, R a (f a)) : List.Forall₂ R l (l.map f) := by
  induction l with
  | nil => exact List.Forall₂.nil
  | cons x xs ih =>
    exact List.Forall₂.cons (h x (List.mem_cons_self x xs))
      (ih (fun a ha => h a (List.mem_cons_of_mem x ha)))

/-- C7: a bulk approve/reject modifies exactly the listed items that
belong to the stated event; a listed item of a different event is left
completely unchanged, and its presence neither raises an error nor
blocks the update of the in-event items. Stated positionally over the
whole collection, for the media and the guestbook bulk routes. -/
theorem claim_bulk_action_scoped (db : List Media) (gdb : List Guestbook)
    (eventId : Nat) (ids : List Nat) (action : String)
    (hids : ids ≠ []) (hact : action = "approve" ∨ action = "reject") :
    (∃ db', bulkActionMedia db eventId ids action = Except.ok db' ∧
      List.Forall₂ (fun m m' =>
        ((m.event ≠ eventId ∨ m.id ∉ ids) → m' = m) ∧
        (m.event = eventId → m.id ∈ ids → m' = applyBulkMediaUpdate action m))
        db db') ∧
    (∃ gdb', bulkActionGuestbook gdb eventId ids action = Except.ok gdb' ∧
      List.Forall₂ (fun g g' =>
        ((g.event ≠ eventId ∨ g.id ∉ ids) → g' = g) ∧
        (g.event = eventId → g.id ∈ ids → g' = applyBulkGuestbookUpdate action g))
        gdb gdb') := by
  have hconM : (["approve", "reject", "delete", "feature", "unfeature"].contains
      action) = true := by
    rcases hact with h | h <;> subst h <;> decide
  have hconG : (["approve", "reject", "delete", "pin", "unpin"].contains
      action) = true := by
    rcases hact with h | h <;> subst h <;> decide
  have hnotdel : ¬(action = "delete") := by
    rcases hact with h | h <;> subst h <;> decide
  have hrunM : bulkActionMedia db eventId ids action =
      Except.ok (db.map (fun m =>
        if decide (m.id ∈ ids) && decide (m.event = eventId) then
          applyBulkMediaUpdate action m
        else m)) := by
    unfold bulkActionMedia
    rw [if_neg hids, if_neg (by rw [hconM]; decide), if_neg hnotdel]
  have hrunG : bulkActionGuestbook gdb eventId ids action =
      Except.ok (gdb.map (fun g =>
        if decide (g.id ∈ ids) && decide (g.event = eventId) then
          applyBulkGuestbookUpdate action g
        else g)) := by
    unfold bulkActionGuestbook
    rw [if_neg hids, if_neg (by rw [hconG]; decide), if_neg hnotdel]
  refine ⟨⟨_, hrunM, forall₂_map_self _ _ _ ?_⟩,
    ⟨_, hrunG, forall₂_map_self _ _ _ ?_⟩⟩
  · intro m hm
    constructor
    · intro hor
      rw [if_neg]
      simp only [Bool.and_eq_true, decide_eq_true_eq]
      rintro ⟨hid, hev⟩
      rcases hor with h1 | h2
      · exact h1 hev
      · exact h2 hid
    · intro hev hid
      rw [if_pos]
      simp only [Bool.and_eq_true, decide_eq_true_eq]
      exact ⟨hid, hev⟩
  · intro g hg
    constructor
    · intro hor
      rw [if_neg]
      simp only [Bool.and_eq_true, decide_eq_true_eq]
      rintro ⟨hid, hev⟩
      rcases hor with h1 | h2
      · exact h1 hev
      · exact h2 hid
    · intro hev hid
      rw [if_pos]
      simp only [Bool.and_eq_true, decide_eq_true_eq]
      exact ⟨hid, hev⟩

/-- Witness for C7: a bulk reject over ids [6, 9] against event 1,
where media 9 / entry 3 belong to event 2. -/
theorem claim_bulk_action_scoped_witness :
    ∃ db', bulkActionMedia [pendingPhoto, otherEventMedia] 1 [6, 9] "reject"
        = Except.ok db' ∧
      List.Forall₂ (fun m m' =>
        ((m.event ≠ 1 ∨ m.id ∉ [6, 9]) → m' = m) ∧
        (m.event = 1 → m.id ∈ [6, 9] → m' = applyBulkMediaUpdate "reject" m))
        [pendingPhoto, otherEventMedia] db' :=
  (claim_bulk_action_scoped [pendingPhoto, otherEventMedia]
    [pendingEntry, otherEventEntry] 1 [6, 9] "reject"
    (by decide) (Or.inr rfl)).1

/-- C8: a guest comment (or guestbook reply) is appended with
`isApproved` equal to the negation of `privacy.moderateUploads`;
the append never changes the parent item's status; and the
`new-comment` / `new-guestbook-reply` broadcast is emitted exactly
when the appended comment's `isApproved` is true. -/
theorem claim_comment_gating (event : Event) (m : Media) (g : Guestbook)
    (gn msg : String) (saved : Media) (emits : List Emit)
    (h : postComment event m gn msg = Except.ok (saved, emits))
    (savedG : Guestbook) (emitsG : List Emit)
    (hG : postReply event g gn msg = Except.ok (savedG, emitsG)) :
    saved.interactions.comments = m.interactions.comments
      ++ [{ guestName := jsTrim gn, message := jsTrim msg,
            isApproved := !event.privacy.moderateUploads }] ∧
    saved.status = m.status ∧
    (emits ≠ [] ↔ (!event.privacy.moderateUploads) = true) ∧
    savedG.replies = g.replies
      ++ [{ guestName := jsTrim gn, message := jsTrim msg,
            isApproved := !event.privacy.moderateUploads }] ∧
    savedG.status = g.status ∧
    (emitsG ≠ [] ↔ (!event.privacy.moderateUploads) = true) := by
  unfold postComment at h
  unfold postReply at hG
  by_cases h1 : jsTrim gn = ""
  · rw [if_pos h1] at h
    exact Except.noConfusion h
  rw [if_neg h1] at h hG
  by_cases h2 : jsTrim msg = "" ∨ (jsTrim msg).length > 300
  · rw [if_pos h2] at h
    exact Except.noConfusion h
  rw [if_neg h2] at h hG
  by_cases h3 : m.event ≠ event.id
  · rw [if_pos h3] at h
    exact Except.noConfusion h
  rw [if_neg h3] at h
  by_cases h4 : g.event ≠ event.id
  · rw [if_pos h4] at hG
    exact Except.noConfusion hG
  rw [if_neg h4] at hG
  simp only [Except.ok.injEq, Prod.mk.injEq] at h hG
  obtain ⟨hsaved, hemits⟩ := h
  obtain ⟨hsavedG, hemitsG⟩ := hG
  subst hsaved hemits hsavedG hemitsG
  refine ⟨rfl, rfl, ?_, rfl, rfl, ?_⟩
  · cases hmod : event.privacy.moderateUploads <;> simp [hmod]
  · cases hmod : event.privacy.moderateUploads <;> simp [hmod]

/-- Witness for C8: a comment on the unmoderated event is appended
with `isApproved = true` and the parent's status is untouched. -/
theorem claim_comment_gating_witness :
    (demoMedia.addComment "Ann" "hi" false).interactions.comments
      = demoMedia.interactions.comments
          ++ [{ guestName := jsTrim "Ann", message := jsTrim "hi",
                isApproved := !demoEventOff.privacy.moderateUploads }] ∧
    (demoMedia.addComment "Ann" "hi" false).status = demoMedia.status := by
  have h := claim_comment_gating demoEventOff demoMedia pendingEntry "Ann" "hi"
    (demoMedia.addComment "Ann" "hi" false)
    [⟨1, Broadcast.newComment 5 "Ann" "hi"⟩] rfl
    (pendingEntry.addReply "Ann" "hi" false)
    [⟨1, Broadcast.newGuestbookReply 1 "Ann" "hi"⟩] rfl
  exact ⟨h.1, h.2.1⟩

/-- C9: deletion attempts the external storage delete first (for a
guestbook entry: when an audio payload exists), swallows its outcome —
the steps after the storage attempt are identical whether it succeeds
or fails — removes the database record regardless, and sends exactly
one deleted-broadcast carrying the item id and event id to the event
room. -/
theorem claim_delete_cascade (event : Event) (userId : Nat) (m : Media)
    (g : Guestbook) (storageOk : Bool)
    (hOwn : isEventOwner event (some userId) = true) :
    (∃ steps, deleteMedia event userId m storageOk = Except.ok steps ∧
      steps.head? = some (Step.storageDelete m.cloudinaryPublicId storageOk) ∧
      Step.dbDelete m.id ∈ steps.tail ∧
      steps.filter Step.isEmit
        = [Step.emit ⟨m.event, Broadcast.mediaDeleted m.id m.event⟩]) ∧
    (deleteMedia event userId m true).map (List.filter (fun s => !s.isStorage))
      = (deleteMedia event userId m false).map
          (List.filter (fun s => !s.isStorage)) ∧
    (∃ gsteps, deleteGuestbookEntry event userId g storageOk = Except.ok gsteps ∧
      (∀ pid, g.audioMessage.cloudinaryPublicId = some pid →
        gsteps.head? = some (Step.storageDelete pid storageOk)) ∧
      Step.dbDelete g.id ∈ gsteps ∧
      gsteps.filter Step.isEmit
        = [Step.emit ⟨g.event, Broadcast.guestbookDeleted g.id g.event⟩]) ∧
    (deleteGuestbookEntry event userId g true).map
        (List.filter (fun s => !s.isStorage))
      = (deleteGuestbookEntry event userId g false).map
          (List.filter (fun s => !s.isStorage)) := by
  have hc : ¬((!isEventOwner event (some userId)) = true) := by simp [hOwn]
  have hrunM : ∀ b, deleteMedia event userId m b =
      Except.ok [Step.storageDelete m.cloudinaryPublicId b,
        Step.dbDelete m.id, Step.statsUpdate,
        Step.emit ⟨m.event, Broadcast.mediaDeleted m.id m.event⟩] := by
    intro b
    unfold deleteMedia
    rw [if_neg hc]
  rcases haud : g.audioMessage.cloudinaryPublicId with _ | pid
  case none =>
    have hrunG : ∀ b, deleteGuestbookEntry event userId g b =
        Except.ok [Step.dbDelete g.id, Step.statsUpdate,
          Step.emit ⟨g.event, Broadcast.guestbookDeleted g.id g.event⟩] := by
      intro b
      unfold deleteGuestbookEntry
      rw [if_neg hc, haud]
      rfl
    refine ⟨⟨_, hrunM storageOk, rfl, by simp, by simp [Step.isEmit]⟩, ?_,
      ⟨_, hrunG storageOk, ?_, by simp, by simp [Step.isEmit]⟩, ?_⟩
    · rw [hrunM true, hrunM false]
      simp [Except.map, Step.isStorage]
    · intro pid hpid
      exact Option.noConfusion hpid
    · rw [hrunG true, hrunG false]
  case some =>
    have hrunG : ∀ b, deleteGuestbookEntry event userId g b =
        Except.ok [Step.storageDelete pid b, Step.dbDelete g.id, Step.statsUpdate,
          Step.emit ⟨g.event, Broadcast.guestbookDeleted g.id g.event⟩] := by
      intro b
      unfold deleteGuestbookEntry
      rw [if_neg hc, haud]
      rfl
    refine ⟨⟨_, hrunM storageOk, rfl, by simp, by simp [Step.isEmit]⟩, ?_,
      ⟨_, hrunG storageOk, ?_, by simp, by simp [Step.isEmit]⟩, ?_⟩
    · rw [hrunM true, hrunM false]
      simp [Except.map, Step.isStorage]
    · intro pid' hpid
      injection hpid with hp
      subst hp
      rfl
    · rw [hrunG true, hrunG false]
      simp [Except.map, Step.isStorage]

/-- Witness for C9: deleting the concrete photo as the host with a
failing storage delete still yields the database removal and exactly
one `media-deleted` broadcast. -/
theorem claim_delete_cascade_witness :
    ∃ steps, deleteMedia demoEventOn 10 demoMedia false = Except.ok steps ∧
      steps.head? = some (Step.storageDelete "pid5" false) ∧
      steps.filter Step.isEmit = [Step.emit ⟨1, Broadcast.mediaDeleted 5 1⟩] := by
  obtain ⟨⟨steps, h1, h2, h3, h4⟩, _⟩ :=
    claim_delete_cascade demoEventOn 10 demoMedia pendingEntry false (by decide)
  exact ⟨steps, h1, h2, h4⟩

end WedPicBox
